import Mathlib

/-!
Shallow embedding of the AgroNova single-file application (`app.py`):
the weather gateway `fetch_weather`, the keyword classifier
`classify_safety`, the advisory wrapper `run_ai_orchestrator`, the
prompt f-string (`base_prompt`), and the button handler that drives one
generation (`generation_handler`).

Modelling conventions:
* Python strings are `List Char`; `str.lower` is a character-wise map.
* External library calls are explicit function parameters: the HTTP
  client is `net`, `json.loads` is `jparse`, the model client is `m`,
  and the Python `repr` of a JSON scalar (used when a dict is embedded
  in an f-string) is `render`.
* Fallible steps return `Option` or `Except`; a raised-and-caught
  Python exception is an `Except.error` carrying (a model of) `str(e)`.
  No theorem depends on the exact wording of the detail strings.
* The Streamlit widgets emitted by the handler are recorded as an
  ordered list of `UIEvent`s, and the CSV append / PDF build as the
  `log` / `report` fields of `RunOutcome`.
-/

def toL (s : String) : List Char := s.toList

/-- Single-quote character, used by the Python dict repr. -/
def quoteChar : Char := Char.ofNat 39

/-- Newline character. -/
def nlChar : Char := Char.ofNat 10

/-- Boolean test that `p` is a leading segment of `s`, character-wise. -/
def isPrefOf : List Char → List Char → Bool
  | [], _ => true
  | _ :: _, [] => false
  | a :: p, b :: s => a == b && isPrefOf p s

/-- Boolean contiguous-substring test, modelling the Python `in`
operator on strings. -/
def occursIn (p : List Char) : List Char → Bool
  | [] => isPrefOf p []
  | b :: s => isPrefOf p (b :: s) || occursIn p s

/-- Character-wise lowercasing, modelling `str.lower` on the ASCII
range (Lean's `Char.toLower` lowers exactly the ASCII uppercase
letters). -/
def lowerL (s : List Char) : List Char := s.map Char.toLower

inductive SafetyTier where
  | RED
  | YELLOW
  | GREEN
  deriving DecidableEq

/-- RED keyword list of `classify_safety` (`risk_keywords` in
`app.py`). -/
def risk_keywords : List (List Char) :=
  [toL "high dosage", toL "toxic", toL "hazard", toL "danger"]

/-- Embedding of `classify_safety` (`app.py` lines 75-82): the loop
over `risk_keywords` returning RED at the first keyword found in
`text.lower()` is the `List.any`; else "chemical" gives YELLOW, else
GREEN. -/
def classify_safety (text : List Char) : SafetyTier :=
  if risk_keywords.any (fun w => occursIn w (lowerL text)) then .RED
  else if occursIn (toL "chemical") (lowerL text) then .YELLOW
  else .GREEN

/-- JSON values, as produced by `json.loads`. -/
inductive JVal where
  | jnull
  | jbool (b : Bool)
  | jnum (q : ℚ)
  | jstr (s : List Char)
  | jarr (elems : List JVal)
  | jobj (fields : List (List Char × JVal))

/-- Association-list lookup for JSON-object fields (`json.loads`
produces unique keys, so first-match lookup models dict access). -/
def lookupKey : List (List Char × JVal) → List Char → Option JVal
  | [], _ => none
  | (k, v) :: rest, key => if k = key then some v else lookupKey rest key

/-- Python subscript `value[key]` on a parsed JSON value: `some` on a
dict that has the key; `none` where Python raises KeyError (missing
key) or TypeError (subscripting a non-dict with a string key). -/
def JVal.getKey : JVal → List Char → Option JVal
  | .jobj fs, key => lookupKey fs key
  | _, _ => none

/-- Weather dict built by `fetch_weather` (`app.py` lines 64-68); the
field values are the JSON values taken from the upstream response. -/
structure Weather where
  temperature : JVal
  humidity : JVal
  rainfall_last_hour : JVal

/-- URL f-string of `fetch_weather` (`app.py` line 62). -/
def weatherUrl (location api_key : List Char) : List Char :=
  toL "http://api.openweathermap.org/data/2.5/weather?q=" ++ location
    ++ toL "&appid=" ++ api_key ++ toL "&units=metric"

/-- Field extraction of `fetch_weather`'s `try` body:
`data["main"]["temp"]`, `data["main"]["humidity"]`, and
`data.get("rain", {}).get("1h", 0)`.  `none` models any KeyError /
TypeError / AttributeError raised there (all caught by the bare
`except`). -/
def extractWeather (data : JVal) : Option Weather :=
  match data.getKey (toL "main") with
  | none => none
  | some mainVal =>
    match mainVal.getKey (toL "temp"), mainVal.getKey (toL "humidity") with
    | some t, some h =>
      match data with
      | .jobj fs =>
        match lookupKey fs (toL "rain") with
        | none => some ⟨t, h, .jnum 0⟩
        | some (.jobj rf) => some ⟨t, h, (lookupKey rf (toL "1h")).getD (.jnum 0)⟩
        | some _ => none
      | _ => none
    | _, _ => none

/-- Embedding of `fetch_weather` (`app.py` lines 58-70).  `net` is the
HTTP client `requests.get(url).json()`: it returns the decoded JSON
body or an error for any transport/timeout/JSON-decode exception. -/
def fetch_weather (net : List Char → Except (List Char) JVal)
    (location api_key : List Char) : Option Weather :=
  if api_key = [] ∨ location = [] then none
  else
    match net (weatherUrl location api_key) with
    | .error _ => none
    | .ok data => extractWeather data

/-- Farm form fields feeding the prompt (`app.py` sidebar plus the
question box), together with the already-resolved weather snapshot. -/
structure FarmContext where
  country : List Char
  state : List Char
  stage : List Char
  goals : List (List Char)
  weather : Option Weather
  question : List Char

/-- Python `', '.join(goals)`. -/
def commaJoin : List (List Char) → List Char
  | [] => []
  | [g] => g
  | g :: g2 :: gs => g ++ toL ", " ++ commaJoin (g2 :: gs)

/-- Goals fragment of the prompt:
`', '.join(goals) if goals else 'General'`. -/
def goalsFrag : List (List Char) → List Char
  | [] => toL "General"
  | g :: gs => commaJoin (g :: gs)

/-- Python repr of the weather dict, as interpolated by the f-string:
`\x7b'temperature': T, 'humidity': H, 'rainfall_last_hour': R\x7d`
where T, H, R are the reprs (`render`) of the stored JSON values. -/
def renderWeather (render : JVal → List Char) (w : Weather) : List Char :=
  toL "\x7b" ++ [quoteChar] ++ toL "temperature" ++ [quoteChar] ++ toL ": "
    ++ render w.temperature
    ++ toL ", " ++ [quoteChar] ++ toL "humidity" ++ [quoteChar] ++ toL ": "
    ++ render w.humidity
    ++ toL ", " ++ [quoteChar] ++ toL "rainfall_last_hour" ++ [quoteChar] ++ toL ": "
    ++ render w.rainfall_last_hour
    ++ toL "\x7d"

/-- Weather slot of the prompt:
`weather_data if weather_data else 'Not available'`. -/
def weatherFrag (render : JVal → List Char) : Option Weather → List Char
  | none => toL "Not available"
  | some w => renderWeather render w

/-- Fixed instruction header of the prompt f-string, up to and
including `Context:`. -/
def hdr : List Char :=
  toL "\nYou are AgroNova Enterprise AI.\n\nReturn output STRICTLY in JSON format:\n\n\x7b\n  \"recommendations\":[\n    \x7b\"action\":\"\", \"why\":\"\", \"risk\":\"LOW/MEDIUM/HIGH\"\x7d\n  ],\n  \"confidence_score\": number_between_0_and_100\n\x7d\n\nContext:\n"

/-- Prompt text strictly before the weather slot. -/
def preWeather (ctx : FarmContext) : List Char :=
  hdr ++ toL "Country: " ++ ctx.country ++ toL "\nState: " ++ ctx.state
    ++ toL "\nStage: " ++ ctx.stage ++ toL "\nGoals: " ++ goalsFrag ctx.goals
    ++ toL "\nWeather: "

/-- Prompt text strictly after the weather slot. -/
def postWeather (ctx : FarmContext) : List Char :=
  toL "\n\nUser Question:\n" ++ ctx.question
    ++ toL "\n\nUse simple language.\nAvoid unsafe chemical advice.\n"
    ++ toL "Provide exactly 3 recommendations.\n"

/-- Embedding of the `base_prompt` f-string (`app.py` lines 139-164).
The segments concatenate to exactly the Python literal.  `now` models
the ambient clock (`datetime.now()` is in scope in the script and used
for the log timestamp and the footer); the f-string never references
it. -/
def base_prompt (render : JVal → List Char) (now : Int) (ctx : FarmContext) : List Char :=
  preWeather ctx ++ weatherFrag render ctx.weather ++ postWeather ctx

/-- Embedding of `run_ai_orchestrator` (`app.py` lines 87-98): an
exception from `generate_content` propagates (`Except.error`); a
response lacking a truthy `.text` (modelled `none`, or `some []` for
an empty string) yields `None`; otherwise the text is returned. -/
def run_ai_orchestrator (resp : Except (List Char) (Option (List Char))) :
    Except (List Char) (Option (List Char)) :=
  match resp with
  | .error e => .error e
  | .ok none => .ok none
  | .ok (some t) => .ok (if t = [] then none else some t)

/-- Streamlit widgets the generation handler can emit, in order. -/
inductive UIEvent where
  | warnIncomplete
  | successBanner
  | recCard (action why risk : JVal)
  | safetyBadge (tier : SafetyTier)
  | confidenceLine (value : JVal)
  | comparison (low : List Char) (high : Option (List Char))
  | downloadButton
  | errorNotice (msg detail : List Char)

/-- One row of `agronova_logs.csv` (`app.py` lines 202-209). -/
structure LogEntry where
  timestamp : Int
  country : List Char
  state : List Char
  confidence : JVal
  safety : SafetyTier

/-- Observable outcome of one press of the generate button:
emitted widgets, the CSV row appended (if any), and the PDF body text
built (if any). -/
structure RunOutcome where
  events : List UIEvent
  log : Option LogEntry
  report : Option (List Char)

/-- Message of `st.error` in the handler's `except` branch. -/
def genericNotice : List Char := toL "AI service unavailable."

/-- Python `low_output.replace("\n", "<br/>")` (`app.py` line 218). -/
def replaceNl : List Char → List Char
  | [] => []
  | c :: rest =>
    if c = nlChar then toL "<br/>" ++ replaceNl rest else c :: replaceNl rest

/-- Python iteration `for rec in X` over a parsed JSON value: a list
yields its elements, a dict yields its keys (as strings), a string
yields its one-character substrings, anything else raises TypeError
(`none`). -/
def iterElems : JVal → Option (List JVal)
  | .jarr xs => some xs
  | .jobj fs => some (fs.map (fun kv => .jstr kv.fst))
  | .jstr s => some (s.map (fun c => .jstr [c]))
  | _ => none

/-- The `for rec in parsed["recommendations"]` loop (`app.py` lines
175-182): each iteration reads `rec["action"]`, `rec["why"]`,
`rec["risk"]` and emits one card; the first failing subscript raises,
keeping the cards already shown (`false` flag). -/
def recLoop : List JVal → List UIEvent × Bool
  | [] => ([], true)
  | r :: rs =>
    match r.getKey (toL "action"), r.getKey (toL "why"), r.getKey (toL "risk") with
    | some a, some w, some k =>
      (UIEvent.recCard a w k :: (recLoop rs).1, (recLoop rs).2)
    | _, _, _ => ([], false)

/-- Code of the handler's `try` block from `parsed =
json.loads(low_output)` onward (`app.py` lines 171-227), given the two
returned outputs.  Any exception falls to the `except` branch, which
emits `st.error("AI service unavailable.")` plus `st.code(str(e))`,
and neither appends a CSV row nor builds a PDF. -/
def afterOutputs (now : Int) (country state : List Char)
    (jparse : List Char → Except (List Char) JVal)
    (lowOpt highOpt : Option (List Char)) : RunOutcome :=
  match lowOpt with
  | none =>
    ⟨[.errorNotice genericNotice (toL "TypeError: the JSON object must be str, bytes or bytearray, not NoneType")], none, none⟩
  | some low_output =>
    match jparse low_output with
    | .error e => ⟨[.errorNotice genericNotice e], none, none⟩
    | .ok parsed =>
      match parsed.getKey (toL "recommendations") with
      | none =>
        ⟨[.successBanner, .errorNotice genericNotice (toL "KeyError: recommendations")], none, none⟩
      | some rv =>
        match iterElems rv with
        | none =>
          ⟨[.successBanner, .errorNotice genericNotice (toL "TypeError: object is not iterable")], none, none⟩
        | some elems =>
          match recLoop elems with
          | (cards, false) =>
            ⟨.successBanner :: cards ++ [.errorNotice genericNotice (toL "KeyError: recommendation field")], none, none⟩
          | (cards, true) =>
            match parsed.getKey (toL "confidence_score") with
            | none =>
              ⟨.successBanner :: cards
                ++ [.safetyBadge (classify_safety low_output),
                    .errorNotice genericNotice (toL "KeyError: confidence_score")], none, none⟩
            | some conf =>
              ⟨.successBanner :: cards
                ++ [.safetyBadge (classify_safety low_output),
                    .confidenceLine conf,
                    .comparison low_output highOpt,
                    .downloadButton],
               some ⟨now, country, state, conf, classify_safety low_output⟩,
               some (replaceNl low_output)⟩

/-- Embedding of the generate-button handler (`app.py` lines 134-231):
the required-field guard, the two model calls at temperatures 0.3 and
0.7 inside the `try`, then `afterOutputs`.  `m prompt t` is one
`generate_content` invocation. -/
def generation_handler (render : JVal → List Char) (now : Int)
    (country state stage : List Char) (goals : List (List Char))
    (question : List Char) (weather_data : Option Weather)
    (m : List Char → ℚ → Except (List Char) (Option (List Char)))
    (jparse : List Char → Except (List Char) JVal) : RunOutcome :=
  if state = [] ∨ question = [] then ⟨[.warnIncomplete], none, none⟩
  else
    match run_ai_orchestrator
        (m (base_prompt render now ⟨country, state, stage, goals, weather_data, question⟩) (3 / 10)) with
    | .error e => ⟨[.errorNotice genericNotice e], none, none⟩
    | .ok lowOpt =>
      match run_ai_orchestrator
          (m (base_prompt render now ⟨country, state, stage, goals, weather_data, question⟩) (7 / 10)) with
      | .error e => ⟨[.errorNotice genericNotice e], none, none⟩
      | .ok highOpt => afterOutputs now country state jparse lowOpt highOpt

/-- First `st.error` message among the emitted widgets, if any. -/
def firstNotice : List UIEvent → Option (List Char)
  | [] => none
  | .errorNotice msg _ :: _ => some msg
  | _ :: rest => firstNotice rest

/-- First `st.error` message of a run, if any. -/
def noticeOf (out : RunOutcome) : Option (List Char) := firstNotice out.events

/-- Boolean test that a safety badge was displayed. -/
def hasSafetyBadge : List UIEvent → Bool
  | [] => false
  | .safetyBadge _ :: _ => true
  | _ :: rest => hasSafetyBadge rest

def isComparison : UIEvent → Bool
  | .comparison _ _ => true
  | _ => false

/-- Run outcome with the side-by-side comparison view removed. -/
def stripComparison (out : RunOutcome) : RunOutcome :=
  ⟨out.events.filter (fun e => !(isComparison e)), out.log, out.report⟩

/-- Fixed repr used when a concrete run needs one. -/
def render0 : JVal → List Char := fun _ => toL "25"

def country0 : List Char := toL "India"

def state0 : List Char := toL "Punjab"

def stage0 : List Char := toL "Sowing"

def goals0 : List (List Char) := [toL "Water Saving"]

def question0 : List Char := toL "Leaves turning yellow"

/-- Concrete context with no weather snapshot. -/
def ctxNone : FarmContext := ⟨country0, state0, stage0, goals0, none, question0⟩

/-- Concrete weather snapshot. -/
def w0 : Weather := ⟨.jnum 25, .jnum 60, .jnum 0⟩

/-- Concrete context with a weather snapshot. -/
def ctxSome : FarmContext := ⟨country0, state0, stage0, goals0, some w0, question0⟩

/-- Model client whose every call raises a transport error. -/
def mFail0 : List Char → ℚ → Except (List Char) (Option (List Char)) :=
  fun _ _ => .error (toL "Connection timeout")

/-- Model client whose every call returns plain (non-JSON) text. -/
def mOk0 : List Char → ℚ → Except (List Char) (Option (List Char)) :=
  fun _ _ => .ok (some (toL "plain text"))

/-- A `json.loads` behaviour that fails (as it does on non-JSON). -/
def jparseFail0 : List Char → Except (List Char) JVal :=
  fun _ => .error (toL "Expecting value: line 1 column 1 (char 0)")

/-- A `json.loads` behaviour returning an empty recommendation list
and an out-of-range confidence score of 150. -/
def jparse150 : List Char → Except (List Char) JVal :=
  fun _ => .ok (.jobj [(toL "recommendations", .jarr []),
                       (toL "confidence_score", .jnum 150)])

/-- A `json.loads` behaviour returning a well-formed response with no
`confidence_score` key. -/
def jparseNoConf : List Char → Except (List Char) JVal :=
  fun _ => .ok (.jobj [(toL "recommendations", .jarr [])])

/-- Model client used for the noninterference witness: fixed
conservative output, creative output "creative A". -/
def mA : List Char → ℚ → Except (List Char) (Option (List Char)) :=
  fun _ t => .ok (some (if t = 3 / 10 then toL "base answer" else toL "creative A"))

/-- Same conservative output as `mA`, different creative output. -/
def mB : List Char → ℚ → Except (List Char) (Option (List Char)) :=
  fun _ t => .ok (some (if t = 3 / 10 then toL "base answer" else toL "creative B"))

/-- HTTP client whose every call raises (timeout). -/
def netFail0 : List Char → Except (List Char) JVal :=
  fun _ => .error (toL "timeout")

/-! ## Helper lemmas -/

theorem isPrefOf_iff (p : List Char) : ∀ s : List Char,
    isPrefOf p s = true ↔ ∃ t, s = p ++ t := by
  induction p with
  | nil =>
    intro s
    simp [isPrefOf]
  | cons a p ih =>
    intro s
    cases s with
    | nil =>
      simp [isPrefOf]
    | cons b s =>
      simp only [isPrefOf, Bool.and_eq_true, beq_iff_eq, ih, List.cons_append,
        List.cons.injEq]
      constructor
      · rintro ⟨rfl, t, rfl⟩
        exact ⟨t, rfl, rfl⟩
      · rintro ⟨t, rfl, rfl⟩
        exact ⟨rfl, t, rfl⟩

theorem occursIn_iff (p : List Char) : ∀ s : List Char,
    occursIn p s = true ↔ ∃ l r, s = l ++ (p ++ r) := by
  intro s
  induction s with
  | nil =>
    simp only [occursIn, isPrefOf_iff]
    constructor
    · rintro ⟨t, ht⟩
      exact ⟨[], t, ht⟩
    · rintro ⟨l, r, h⟩
      rcases List.append_eq_nil.mp h.symm with ⟨rfl, h2⟩
      exact ⟨r, by simpa using h⟩
  | cons b s ih =>
    simp only [occursIn, Bool.or_eq_true, isPrefOf_iff, ih]
    constructor
    · rintro (⟨t, ht⟩ | ⟨l, r, rfl⟩)
      · exact ⟨[], t, ht⟩
      · exact ⟨b :: l, r, rfl⟩
    · rintro ⟨l, r, hl⟩
      cases l with
      | nil => exact Or.inl ⟨r, by simpa using hl⟩
      | cons x l =>
        rw [List.cons_append] at hl
        cases hl
        exact Or.inr ⟨l, r, rfl⟩

theorem occursIn_of_decomp {p s l r : List Char} (h : s = l ++ (p ++ r)) :
    occursIn p s = true :=
  (occursIn_iff p s).mpr ⟨l, r, h⟩

theorem mem_of_occursIn {p s : List Char} {c : Char}
    (h : occursIn p s = true) (hc : c ∈ p) : c ∈ s := by
  rcases (occursIn_iff p s).mp h with ⟨l, r, rfl⟩
  exact List.mem_append.mpr (Or.inr (List.mem_append.mpr (Or.inl hc)))

theorem occursIn_eq_false_of_not_mem {p s : List Char} {c : Char}
    (hc : c ∈ p) (hs : c ∉ s) : occursIn p s = false := by
  by_contra h
  exact hs (mem_of_occursIn (by simpa using h) hc)

/-! ## C1 -/

/-- C1: `classify_safety` returns RED exactly when at least one keyword
of `risk_keywords` (the fixed set "high dosage", "toxic", "hazard",
"danger") occurs as a contiguous substring of the lowercased input
(i.e. occurs case-insensitively in the input); otherwise it returns
YELLOW exactly when "chemical" so occurs; otherwise GREEN.  In
particular, a RED keyword together with "chemical" still yields RED,
since the RED biconditional carries no "chemical" condition. -/
theorem C1_classify_safety_keywords (s : List Char) :
    (classify_safety s = .RED ↔
      ∃ kw ∈ risk_keywords, ∃ l r, lowerL s = l ++ (kw ++ r))
    ∧ (classify_safety s = .YELLOW ↔
      (¬ ∃ kw ∈ risk_keywords, ∃ l r, lowerL s = l ++ (kw ++ r))
        ∧ ∃ l r, lowerL s = l ++ (toL "chemical" ++ r))
    ∧ (classify_safety s = .GREEN ↔
      (¬ ∃ kw ∈ risk_keywords, ∃ l r, lowerL s = l ++ (kw ++ r))
        ∧ ¬ ∃ l r, lowerL s = l ++ (toL "chemical" ++ r)) := by
  unfold classify_safety
  by_cases hR : risk_keywords.any (fun w => occursIn w (lowerL s)) = true
  · rw [if_pos hR]
    rw [List.any_eq_true] at hR
    rcases hR with ⟨kw, hkw, hocc⟩
    rcases (occursIn_iff kw (lowerL s)).mp hocc with ⟨l, r, hdecomp⟩
    refine ⟨⟨fun _ => ⟨kw, hkw, l, r, hdecomp⟩, fun _ => rfl⟩, ?_, ?_⟩
    · constructor
      · intro h
        exact absurd h (by simp)
      · rintro ⟨hno, _⟩
        exact absurd ⟨kw, hkw, l, r, hdecomp⟩ hno
    · constructor
      · intro h
        exact absurd h (by simp)
      · rintro ⟨hno, _⟩
        exact absurd ⟨kw, hkw, l, r, hdecomp⟩ hno
  · rw [if_neg hR]
    have hno : ¬ ∃ kw ∈ risk_keywords, ∃ l r, lowerL s = l ++ (kw ++ r) := by
      rintro ⟨kw, hkw, l, r, hdecomp⟩
      exact hR (List.any_eq_true.mpr ⟨kw, hkw, occursIn_of_decomp hdecomp⟩)
    by_cases hY : occursIn (toL "chemical") (lowerL s) = true
    · rw [if_pos hY]
      rcases (occursIn_iff _ (lowerL s)).mp hY with ⟨l, r, hdecomp⟩
      refine ⟨?_, ⟨fun _ => ⟨hno, l, r, hdecomp⟩, fun _ => rfl⟩, ?_⟩
      · constructor
        · intro h
          exact absurd h (by simp)
        · rintro ⟨kw, hkw, l, r, hdecomp⟩
          exact absurd ⟨kw, hkw, l, r, hdecomp⟩ hno
      · constructor
        · intro h
          exact absurd h (by simp)
        · rintro ⟨_, hnc⟩
          exact absurd ⟨l, r, hdecomp⟩ hnc
    · rw [if_neg hY]
      have hnc : ¬ ∃ l r, lowerL s = l ++ (toL "chemical" ++ r) := by
        rintro ⟨l, r, hdecomp⟩
        exact hY (occursIn_of_decomp hdecomp)
      refine ⟨?_, ?_, ⟨fun _ => ⟨hno, hnc⟩, fun _ => rfl⟩⟩
      · constructor
        · intro h
          exact absurd h (by simp)
        · rintro ⟨kw, hkw, l, r, hdecomp⟩
          exact absurd ⟨kw, hkw, l, r, hdecomp⟩ hno
      · constructor
        · intro h
          exact absurd h (by simp)
        · rintro ⟨_, ⟨l, r, hdecomp⟩⟩
          exact absurd ⟨l, r, hdecomp⟩ hnc

theorem not_mem_append {c : Char} {a b : List Char} (ha : c ∉ a) (hb : c ∉ b) :
    c ∉ a ++ b := by
  intro h
  exact (List.mem_append.mp h).elim ha hb

/-! ## C9 -/

/-- C9: the prompt f-string is deterministic in the form fields: it
reads nothing from the run environment.  `now` models the ambient
`datetime.now()` clock available to the script (used by the usage log
and the footer); two evaluations of `base_prompt` on an identical
`FarmContext` under different clocks yield byte-identical text. -/
theorem C9_prompt_deterministic (render : JVal → List Char) (now1 now2 : Int)
    (ctx : FarmContext) :
    base_prompt render now1 ctx = base_prompt render now2 ctx := rfl

/-! ## C6 -/

/-- C6: the built prompt contains the literal instruction line
"Provide exactly 3 recommendations."; it embeds the country, state,
stage, the goals fragment and the weather label as one contiguous
block in that order; it embeds the user question verbatim; and the
goals fragment is the comma-join of the goals, with the literal
placeholder "General" substituted when the goals list is empty. -/
theorem C6_prompt_fields (render : JVal → List Char) (now : Int) (ctx : FarmContext) :
    occursIn (toL "Provide exactly 3 recommendations.\n") (base_prompt render now ctx) = true
    ∧ occursIn (toL "Country: " ++ ctx.country ++ toL "\nState: " ++ ctx.state
        ++ toL "\nStage: " ++ ctx.stage ++ toL "\nGoals: " ++ goalsFrag ctx.goals
        ++ toL "\nWeather: ") (base_prompt render now ctx) = true
    ∧ occursIn ctx.question (base_prompt render now ctx) = true
    ∧ goalsFrag [] = toL "General"
    ∧ ∀ g gs, goalsFrag (g :: gs) = commaJoin (g :: gs) := by
  refine ⟨?_, ?_, ?_, rfl, fun g gs => rfl⟩
  · apply occursIn_of_decomp
      (l := preWeather ctx ++ weatherFrag render ctx.weather ++ toL "\n\nUser Question:\n"
        ++ ctx.question ++ toL "\n\nUse simple language.\nAvoid unsafe chemical advice.\n")
      (r := [])
    simp [base_prompt, postWeather, List.append_assoc]
  · apply occursIn_of_decomp (l := hdr)
      (r := weatherFrag render ctx.weather ++ postWeather ctx)
    simp [base_prompt, preWeather, List.append_assoc]
  · apply occursIn_of_decomp
      (l := preWeather ctx ++ weatherFrag render ctx.weather ++ toL "\n\nUser Question:\n")
      (r := toL "\n\nUse simple language.\nAvoid unsafe chemical advice.\n"
        ++ toL "Provide exactly 3 recommendations.\n")
    simp [base_prompt, postWeather, List.append_assoc]

/-! ## C5 -/

set_option maxRecDepth 4000 in
/-- C5 counterexample: the claim asks for the literal lowercase
"not available" marker.  On a concrete context with no weather
snapshot the built prompt does not contain "not available"; the marker
the code substitutes is the capitalised "Not available". -/
theorem C5_counterexample_marker_case :
    occursIn (toL "not available") (base_prompt render0 0 ctxNone) = false
    ∧ occursIn (toL "Not available") (base_prompt render0 0 ctxNone) = true := by
  constructor <;> decide

/-- C5 amended: when the weather snapshot is absent the prompt's
weather slot holds exactly the literal "Not available" (capital N)
between the fixed pre- and post-weather text; when a snapshot is
present the slot holds the dict-style fragment `renderWeather`
instead, and that fragment never contains the marker as long as the
rendered numeric values contain no capital N (numeric reprs do not). -/
theorem C5_amended_weather_slot (render : JVal → List Char) (now : Int)
    (ctx : FarmContext) :
    (ctx.weather = none →
      base_prompt render now ctx
        = preWeather ctx ++ (toL "Not available" ++ postWeather ctx))
    ∧ ∀ w, ctx.weather = some w →
        base_prompt render now ctx
          = preWeather ctx ++ (renderWeather render w ++ postWeather ctx)
        ∧ (('N' ∉ render w.temperature ∧ 'N' ∉ render w.humidity
              ∧ 'N' ∉ render w.rainfall_last_hour) →
            occursIn (toL "Not available") (renderWeather render w) = false) := by
  constructor
  · intro h
    simp [base_prompt, h, weatherFrag, List.append_assoc]
  · intro w hw
    constructor
    · simp [base_prompt, hw, weatherFrag, List.append_assoc]
    · rintro ⟨h1, h2, h3⟩
      have hNot : ('N' : Char) ∉ renderWeather render w := by
        unfold renderWeather
        repeat' apply not_mem_append
        all_goals first
        | exact h1
        | exact h2
        | exact h3
        | decide
      exact occursIn_eq_false_of_not_mem (by decide) hNot

/-- Witness for C5: instantiates the amended theorem on the concrete
context `ctxSome` and snapshot `w0`, discharging the hypotheses. -/
theorem C5_amended_witness :
    base_prompt render0 0 ctxSome
      = preWeather ctxSome ++ (renderWeather render0 w0 ++ postWeather ctxSome)
    ∧ occursIn (toL "Not available") (renderWeather render0 w0) = false := by
  have h := (C5_amended_weather_slot render0 0 ctxSome).2 w0 rfl
  exact ⟨h.1, h.2 (by refine ⟨?_, ?_, ?_⟩ <;> decide)⟩

/-! ## C7 -/

/-- C7: `fetch_weather` returns `none` (absent) when either argument
is empty, and then its result does not depend on the network at all
(no call is observable); it returns `none` on any network/timeout
error of the upstream call; it returns `none` when the response JSON
lacks the expected fields (`extractWeather` fails); and, its return
type being `Option Weather`, its only outcomes are `none` or a
snapshot — the bare `except` makes it total, it never raises. -/
theorem C7_fetch_weather_absent (net : List Char → Except (List Char) JVal)
    (location api_key : List Char) :
    ((location = [] ∨ api_key = []) →
      ∀ net2, fetch_weather net2 location api_key = none)
    ∧ (∀ e, net (weatherUrl location api_key) = .error e →
        fetch_weather net location api_key = none)
    ∧ (∀ data, net (weatherUrl location api_key) = .ok data →
        extractWeather data = none → fetch_weather net location api_key = none)
    ∧ (fetch_weather net location api_key = none
        ∨ ∃ w, fetch_weather net location api_key = some w) := by
  refine ⟨?_, ?_, ?_, ?_⟩
  · intro h net2
    unfold fetch_weather
    rcases h with h | h <;> simp [h]
  · intro e he
    unfold fetch_weather
    by_cases hak : api_key = [] ∨ location = []
    · simp [hak]
    · simp [hak, he]
  · intro data hd hext
    unfold fetch_weather
    by_cases hak : api_key = [] ∨ location = []
    · simp [hak]
    · simp [hak, hd, hext]
  · cases h : fetch_weather net location api_key
    · exact Or.inl rfl
    · exact Or.inr ⟨_, rfl⟩

/-- Witness for C7: a concrete empty location and a concrete failing
network, each yielding `none`. -/
theorem C7_witness :
    fetch_weather netFail0 [] (toL "k") = none
    ∧ fetch_weather netFail0 (toL "Punjab") (toL "k") = none := by
  refine ⟨?_, ?_⟩
  · exact (C7_fetch_weather_absent netFail0 [] (toL "k")).1 (Or.inl rfl) netFail0
  · exact (C7_fetch_weather_absent netFail0 (toL "Punjab") (toL "k")).2.1
      (toL "timeout") rfl

/-! ## Handler lemmas -/

theorem run_ai_ok (o : Option (List Char)) :
    ∃ u, run_ai_orchestrator (.ok o) = .ok u := by
  cases o with
  | none => exact ⟨none, rfl⟩
  | some t => exact ⟨if t = [] then none else some t, rfl⟩

theorem firstNotice_recCards : ∀ (elems : List JVal) (rest : List UIEvent),
    firstNotice ((recLoop elems).1 ++ rest) = firstNotice rest := by
  intro elems
  induction elems with
  | nil => intro rest; simp [recLoop]
  | cons r rs ih =>
    intro rest
    cases ha : r.getKey (toL "action") with
    | none => simp [recLoop, ha]
    | some a =>
      cases hw : r.getKey (toL "why") with
      | none => simp [recLoop, ha, hw]
      | some w =>
        cases hk : r.getKey (toL "risk") with
        | none => simp [recLoop, ha, hw, hk]
        | some k => simp [recLoop, ha, hw, hk, firstNotice, ih]

/-- Reduction of the handler to `afterOutputs` when the guard passes
and both model calls return. -/
theorem handler_reduces (render : JVal → List Char) (now : Int)
    (country state stage : List Char) (goals : List (List Char))
    (question : List Char) (weather_data : Option Weather)
    (m : List Char → ℚ → Except (List Char) (Option (List Char)))
    (jparse : List Char → Except (List Char) JVal)
    (hs : state ≠ []) (hq : question ≠ []) (low : List Char) (hne : low ≠ [])
    (ho u : Option (List Char))
    (hl : m (base_prompt render now ⟨country, state, stage, goals, weather_data, question⟩) (3 / 10)
        = .ok (some low))
    (hh : m (base_prompt render now ⟨country, state, stage, goals, weather_data, question⟩) (7 / 10)
        = .ok ho)
    (hu : run_ai_orchestrator (.ok ho) = .ok u) :
    generation_handler render now country state stage goals question weather_data m jparse
      = afterOutputs now country state jparse (some low) u := by
  unfold generation_handler
  rw [if_neg (not_or.mpr ⟨hs, hq⟩), hl, hh, hu]
  simp [run_ai_orchestrator, hne]

/-- Every failing branch of `afterOutputs` leaves the log and the
report empty, and the log and the report are built together. -/
theorem afterOutputs_log_report (now : Int) (country state : List Char)
    (jparse : List Char → Except (List Char) JVal)
    (lowOpt highOpt : Option (List Char)) :
    (noticeOf (afterOutputs now country state jparse lowOpt highOpt) = none
      ∨ ((afterOutputs now country state jparse lowOpt highOpt).log = none
          ∧ (afterOutputs now country state jparse lowOpt highOpt).report = none))
    ∧ (afterOutputs now country state jparse lowOpt highOpt).log.isSome
        = (afterOutputs now country state jparse lowOpt highOpt).report.isSome := by
  cases lowOpt with
  | none => exact ⟨Or.inr ⟨rfl, rfl⟩, rfl⟩
  | some low =>
    cases hj : jparse low with
    | error e => simp [afterOutputs, hj]
    | ok parsed =>
      cases hr : parsed.getKey (toL "recommendations") with
      | none => simp [afterOutputs, hj, hr]
      | some rv =>
        cases hi : iterElems rv with
        | none => simp [afterOutputs, hj, hr, hi]
        | some elems =>
          rcases hrec : recLoop elems with ⟨cards, flag⟩
          have hc : cards = (recLoop elems).1 := by rw [hrec]
          cases flag with
          | false => simp [afterOutputs, hj, hr, hi, hrec]
          | true =>
            cases hcf : parsed.getKey (toL "confidence_score") with
            | none => simp [afterOutputs, hj, hr, hi, hrec, hcf]
            | some conf =>
              refine ⟨Or.inl ?_, ?_⟩
              · simp only [afterOutputs, hj, hr, hi, hrec, hcf, noticeOf, firstNotice]
                rw [hc, List.append_eq, firstNotice_recCards]
                rfl
              · simp [afterOutputs, hj, hr, hi, hrec, hcf]

/-- The part of the run after both outputs are in hand ignores the
creative output everywhere except the comparison view. -/
theorem strip_afterOutputs (now : Int) (country state : List Char)
    (jparse : List Char → Except (List Char) JVal)
    (lowOpt h1 h2 : Option (List Char)) :
    stripComparison (afterOutputs now country state jparse lowOpt h1)
      = stripComparison (afterOutputs now country state jparse lowOpt h2) := by
  cases lowOpt with
  | none => rfl
  | some low =>
    cases hj : jparse low with
    | error e => simp [afterOutputs, hj]
    | ok parsed =>
      cases hr : parsed.getKey (toL "recommendations") with
      | none => simp [afterOutputs, hj, hr]
      | some rv =>
        cases hi : iterElems rv with
        | none => simp [afterOutputs, hj, hr, hi]
        | some elems =>
          rcases hrec : recLoop elems with ⟨cards, flag⟩
          have hc : cards = (recLoop elems).1 := by rw [hrec]
          cases flag with
          | false => simp [afterOutputs, hj, hr, hi, hrec]
          | true =>
            cases hcf : parsed.getKey (toL "confidence_score") with
            | none => simp [afterOutputs, hj, hr, hi, hrec, hcf]
            | some conf =>
              simp only [afterOutputs, hj, hr, hi, hrec, hcf, stripComparison,
                List.filter_cons, List.filter_append, List.filter, isComparison,
                Bool.not_true, Bool.not_false]

/-! ## C2 -/

/-- C2 counterexample: a pure transport failure of the advisory call
and a pure parse failure of well-returned raw text are surfaced with
the identical generic notice "AI service unavailable." — the single
bare `except` branch makes no `MalformedResponse` / `ModelUnavailable`
distinction at the point the user is notified. -/
theorem C2_counterexample_uniform_notice :
    noticeOf (generation_handler render0 0 country0 state0 stage0 goals0
        question0 none mFail0 jparseFail0) = some genericNotice
    ∧ noticeOf (generation_handler render0 0 country0 state0 stage0 goals0
        question0 none mOk0 jparseFail0) = some genericNotice := by
  constructor <;> rfl

/-- C2 amended: both failure kinds — a raising model call and a
`json.loads` failure on returned text — are caught by the one generic
handler and produce the same `st.error` notice
"AI service unavailable." (only the echoed raw exception text
differs); no distinct MalformedResponse surfacing exists. -/
theorem C2_amended_generic_notice (render : JVal → List Char) (now : Int)
    (country state stage : List Char) (goals : List (List Char))
    (question : List Char) (weather_data : Option Weather)
    (m : List Char → ℚ → Except (List Char) (Option (List Char)))
    (jparse : List Char → Except (List Char) JVal)
    (hs : state ≠ []) (hq : question ≠ []) :
    (∀ e, m (base_prompt render now ⟨country, state, stage, goals, weather_data, question⟩) (3 / 10)
        = .error e →
      noticeOf (generation_handler render now country state stage goals question
          weather_data m jparse) = some genericNotice)
    ∧ (∀ low ho e,
        m (base_prompt render now ⟨country, state, stage, goals, weather_data, question⟩) (3 / 10)
          = .ok (some low) → low ≠ [] →
        m (base_prompt render now ⟨country, state, stage, goals, weather_data, question⟩) (7 / 10)
          = .ok ho →
        jparse low = .error e →
        noticeOf (generation_handler render now country state stage goals question
            weather_data m jparse) = some genericNotice) := by
  constructor
  · intro e he
    unfold generation_handler
    rw [if_neg (not_or.mpr ⟨hs, hq⟩), he]
    rfl
  · intro low ho e hl hne hh hj
    obtain ⟨u, hu⟩ := run_ai_ok ho
    rw [handler_reduces render now country state stage goals question weather_data
      m jparse hs hq low hne ho u hl hh hu]
    simp [afterOutputs, hj, noticeOf, firstNotice]

/-- Witness for C2: the amended theorem instantiated on concrete runs
(one failing call, one failing parse), hypotheses discharged. -/
theorem C2_amended_witness :
    noticeOf (generation_handler render0 0 country0 state0 stage0 goals0
        question0 (some w0) mFail0 jparseFail0) = some genericNotice
    ∧ noticeOf (generation_handler render0 0 country0 state0 stage0 goals0
        question0 (some w0) mOk0 jparseFail0) = some genericNotice := by
  constructor
  · exact (C2_amended_generic_notice render0 0 country0 state0 stage0 goals0
        question0 (some w0) mFail0 jparseFail0 (by decide) (by decide)).1
      (toL "Connection timeout") rfl
  · exact (C2_amended_generic_notice render0 0 country0 state0 stage0 goals0
        question0 (some w0) mOk0 jparseFail0 (by decide) (by decide)).2
      (toL "plain text") (some (toL "plain text"))
      (toL "Expecting value: line 1 column 1 (char 0)") rfl (by decide) rfl rfl

/-! ## C3 -/

/-- C3 counterexample: a concrete run whose raw model output is plain
text that `json.loads` rejects displays no safety badge at all — the
parse failure jumps to the `except` branch before `classify_safety`
runs, so no safety tier is produced, contradicting the claim that a
tier is produced regardless of parse success. -/
theorem C3_counterexample_parse_failure_no_tier :
    hasSafetyBadge (generation_handler render0 0 country0 state0 stage0 goals0
        question0 none mOk0 jparseFail0).events = false
    ∧ noticeOf (generation_handler render0 0 country0 state0 stage0 goals0
        question0 none mOk0 jparseFail0) = some genericNotice := by
  constructor <;> rfl

/-- C3 amended: `classify_safety` runs against the raw low-temperature
output only after `json.loads` (and the recommendation loop) succeed:
a parse failure displays no safety tier, while on a successful parse
the displayed tier is `classify_safety` of the raw text. -/
theorem C3_amended_tier_requires_parse (render : JVal → List Char) (now : Int)
    (country state stage : List Char) (goals : List (List Char))
    (question : List Char) (weather_data : Option Weather)
    (m : List Char → ℚ → Except (List Char) (Option (List Char)))
    (jparse : List Char → Except (List Char) JVal)
    (hs : state ≠ []) (hq : question ≠ []) (low : List Char) (hne : low ≠ [])
    (ho : Option (List Char))
    (hl : m (base_prompt render now ⟨country, state, stage, goals, weather_data, question⟩) (3 / 10)
        = .ok (some low))
    (hh : m (base_prompt render now ⟨country, state, stage, goals, weather_data, question⟩) (7 / 10)
        = .ok ho) :
    (∀ e, jparse low = .error e →
      hasSafetyBadge (generation_handler render now country state stage goals
          question weather_data m jparse).events = false)
    ∧ (∀ parsed rv elems cards, jparse low = .ok parsed →
        parsed.getKey (toL "recommendations") = some rv →
        iterElems rv = some elems →
        recLoop elems = (cards, true) →
        UIEvent.safetyBadge (classify_safety low)
          ∈ (generation_handler render now country state stage goals
              question weather_data m jparse).events) := by
  obtain ⟨u, hu⟩ := run_ai_ok ho
  rw [handler_reduces render now country state stage goals question weather_data
    m jparse hs hq low hne ho u hl hh hu]
  constructor
  · intro e hj
    simp [afterOutputs, hj, hasSafetyBadge]
  · intro parsed rv elems cards hj hr hi hrec
    cases hcf : parsed.getKey (toL "confidence_score") with
    | none => simp [afterOutputs, hj, hr, hi, hrec, hcf]
    | some conf => simp [afterOutputs, hj, hr, hi, hrec, hcf]

/-- Witness for C3: the amended theorem applied to one run with a
failing parse (no badge) and one with a succeeding parse (badge for
the raw text displayed), hypotheses discharged concretely. -/
theorem C3_amended_witness :
    hasSafetyBadge (generation_handler render0 0 country0 state0 stage0 goals0
        question0 (some w0) mOk0 jparseFail0).events = false
    ∧ UIEvent.safetyBadge (classify_safety (toL "plain text"))
        ∈ (generation_handler render0 0 country0 state0 stage0 goals0
            question0 (some w0) mOk0 jparse150).events := by
  constructor
  · exact (C3_amended_tier_requires_parse render0 0 country0 state0 stage0 goals0
        question0 (some w0) mOk0 jparseFail0 (by decide) (by decide)
        (toL "plain text") (by decide) (some (toL "plain text")) rfl rfl).1
      (toL "Expecting value: line 1 column 1 (char 0)") rfl
  · exact (C3_amended_tier_requires_parse render0 0 country0 state0 stage0 goals0
        question0 (some w0) mOk0 jparse150 (by decide) (by decide)
        (toL "plain text") (by decide) (some (toL "plain text")) rfl rfl).2
      (.jobj [(toL "recommendations", .jarr []), (toL "confidence_score", .jnum 150)])
      (.jarr []) [] [] rfl rfl rfl rfl

/-! ## C4 -/

/-- C4 counterexample: on a parsed response carrying
`confidence_score = 150` the handler displays "150%" and logs 150 —
the out-of-range value is used verbatim, not treated as absent as the
claim requires. -/
theorem C4_counterexample_confidence_passthrough :
    (generation_handler render0 0 country0 state0 stage0 goals0 question0 none
        mOk0 jparse150).events
      = [.successBanner, .safetyBadge .GREEN, .confidenceLine (.jnum 150),
         .comparison (toL "plain text") (some (toL "plain text")), .downloadButton]
    ∧ (generation_handler render0 0 country0 state0 stage0 goals0 question0 none
        mOk0 jparse150).log
      = some ⟨0, country0, state0, .jnum 150, .GREEN⟩ := by
  constructor <;> rfl

/-- C4 amended: the handler performs no validation or clamping of
`confidence_score`: whatever JSON value the key holds is displayed and
logged verbatim (150, -5, 82.5 alike), and a response missing the key
altogether aborts the generation with the generic error notice and no
log row. -/
theorem C4_amended_confidence_verbatim (render : JVal → List Char) (now : Int)
    (country state stage : List Char) (goals : List (List Char))
    (question : List Char) (weather_data : Option Weather)
    (m : List Char → ℚ → Except (List Char) (Option (List Char)))
    (jparse : List Char → Except (List Char) JVal)
    (hs : state ≠ []) (hq : question ≠ []) (low : List Char) (hne : low ≠ [])
    (ho : Option (List Char))
    (hl : m (base_prompt render now ⟨country, state, stage, goals, weather_data, question⟩) (3 / 10)
        = .ok (some low))
    (hh : m (base_prompt render now ⟨country, state, stage, goals, weather_data, question⟩) (7 / 10)
        = .ok ho)
    (parsed : JVal) (hj : jparse low = .ok parsed)
    (rv : JVal) (hr : parsed.getKey (toL "recommendations") = some rv)
    (elems : List JVal) (hi : iterElems rv = some elems)
    (cards : List UIEvent) (hrec : recLoop elems = (cards, true)) :
    (∀ conf, parsed.getKey (toL "confidence_score") = some conf →
      UIEvent.confidenceLine conf
          ∈ (generation_handler render now country state stage goals question
              weather_data m jparse).events
        ∧ (generation_handler render now country state stage goals question
            weather_data m jparse).log
          = some ⟨now, country, state, conf, classify_safety low⟩)
    ∧ (parsed.getKey (toL "confidence_score") = none →
        noticeOf (generation_handler render now country state stage goals
            question weather_data m jparse) = some genericNotice
        ∧ (generation_handler render now country state stage goals question
            weather_data m jparse).log = none) := by
  obtain ⟨u, hu⟩ := run_ai_ok ho
  rw [handler_reduces render now country state stage goals question weather_data
    m jparse hs hq low hne ho u hl hh hu]
  have hc : cards = (recLoop elems).1 := by rw [hrec]
  constructor
  · intro conf hcf
    constructor
    · simp [afterOutputs, hj, hr, hi, hrec, hcf]
    · simp [afterOutputs, hj, hr, hi, hrec, hcf]
  · intro hcf
    constructor
    · simp only [afterOutputs, hj, hr, hi, hrec, hcf, noticeOf, firstNotice]
      rw [hc, List.append_eq, firstNotice_recCards]
      rfl
    · simp [afterOutputs, hj, hr, hi, hrec, hcf]

/-- Witness for C4: the amended theorem applied to a run whose parsed
confidence is 150 (displayed and logged verbatim) and to a run whose
parsed response lacks the key (no log row), hypotheses discharged. -/
theorem C4_amended_witness :
    UIEvent.confidenceLine (.jnum 150)
        ∈ (generation_handler render0 0 country0 state0 stage0 goals0 question0
            (some w0) mOk0 jparse150).events
    ∧ (generation_handler render0 0 country0 state0 stage0 goals0 question0
        (some w0) mOk0 jparseNoConf).log = none := by
  constructor
  · exact ((C4_amended_confidence_verbatim render0 0 country0 state0 stage0
        goals0 question0 (some w0) mOk0 jparse150 (by decide) (by decide)
        (toL "plain text") (by decide) (some (toL "plain text")) rfl rfl
        (.jobj [(toL "recommendations", .jarr []), (toL "confidence_score", .jnum 150)])
        rfl (.jarr []) rfl [] rfl [] rfl).1 (.jnum 150) rfl).1
  · exact ((C4_amended_confidence_verbatim render0 0 country0 state0 stage0
        goals0 question0 (some w0) mOk0 jparseNoConf (by decide) (by decide)
        (toL "plain text") (by decide) (some (toL "plain text")) rfl rfl
        (.jobj [(toL "recommendations", .jarr [])])
        rfl (.jarr []) rfl [] rfl [] rfl).2 rfl).2

/-! ## C8 -/

/-- C8: every run of the generation handler either shows no error
notice at all, or it has appended no usage-log row and built no
report; moreover a log row and a report exist together or not at all —
the CSV append and the PDF build sit at the end of the `try` block, so
an advisory-call or parse failure leaves the append-only log and the
report untouched. -/
theorem C8_no_log_on_failure (render : JVal → List Char) (now : Int)
    (country state stage : List Char) (goals : List (List Char))
    (question : List Char) (weather_data : Option Weather)
    (m : List Char → ℚ → Except (List Char) (Option (List Char)))
    (jparse : List Char → Except (List Char) JVal) :
    (noticeOf (generation_handler render now country state stage goals question
          weather_data m jparse) = none
      ∨ ((generation_handler render now country state stage goals question
            weather_data m jparse).log = none
          ∧ (generation_handler render now country state stage goals question
              weather_data m jparse).report = none))
    ∧ (generation_handler render now country state stage goals question
        weather_data m jparse).log.isSome
      = (generation_handler render now country state stage goals question
          weather_data m jparse).report.isSome := by
  unfold generation_handler
  by_cases h0 : state = [] ∨ question = []
  · rw [if_pos h0]
    exact ⟨Or.inl rfl, rfl⟩
  · rw [if_neg h0]
    cases run_ai_orchestrator (m (base_prompt render now
        ⟨country, state, stage, goals, weather_data, question⟩) (3 / 10)) with
    | error e => exact ⟨Or.inr ⟨rfl, rfl⟩, rfl⟩
    | ok lowOpt =>
      cases run_ai_orchestrator (m (base_prompt render now
          ⟨country, state, stage, goals, weather_data, question⟩) (7 / 10)) with
      | error e => exact ⟨Or.inr ⟨rfl, rfl⟩, rfl⟩
      | ok highOpt => exact afterOutputs_log_report now country state jparse lowOpt highOpt

/-! ## C10 -/

/-- C10: noninterference of the creative (temperature 0.7) output.
For two runs with identical inputs whose model clients agree on the
conservative (temperature 0.3) call of this prompt and whose creative
calls both return (with arbitrarily different outputs), everything
observable apart from the side-by-side comparison view — the
recommendation cards, safety badge, confidence line, usage-log row and
report text — is identical.  (A creative call that raises is a
ModelUnavailable failure of the whole generation and has no "output".) -/
theorem C10_high_temp_noninterference (render : JVal → List Char) (now : Int)
    (country state stage : List Char) (goals : List (List Char))
    (question : List Char) (weather_data : Option Weather)
    (m1 m2 : List Char → ℚ → Except (List Char) (Option (List Char)))
    (jparse : List Char → Except (List Char) JVal)
    (hlow : m1 (base_prompt render now ⟨country, state, stage, goals, weather_data, question⟩) (3 / 10)
          = m2 (base_prompt render now ⟨country, state, stage, goals, weather_data, question⟩) (3 / 10))
    (o1 o2 : Option (List Char))
    (h1 : m1 (base_prompt render now ⟨country, state, stage, goals, weather_data, question⟩) (7 / 10)
        = .ok o1)
    (h2 : m2 (base_prompt render now ⟨country, state, stage, goals, weather_data, question⟩) (7 / 10)
        = .ok o2) :
    stripComparison (generation_handler render now country state stage goals
        question weather_data m1 jparse)
      = stripComparison (generation_handler render now country state stage goals
          question weather_data m2 jparse) := by
  obtain ⟨u1, hu1⟩ := run_ai_ok o1
  obtain ⟨u2, hu2⟩ := run_ai_ok o2
  unfold generation_handler
  by_cases h0 : state = [] ∨ question = []
  · rw [if_pos h0, if_pos h0]
  · rw [if_neg h0, if_neg h0, hlow, h1, h2, hu1, hu2]
    cases run_ai_orchestrator (m2 (base_prompt render now
        ⟨country, state, stage, goals, weather_data, question⟩) (3 / 10)) with
    | error e => rfl
    | ok lowOpt => exact strip_afterOutputs now country state jparse lowOpt u1 u2

/-- Witness for C10: two concrete clients sharing the conservative
output and differing in the creative output produce identical
comparison-stripped outcomes; the theorem is applied with its
hypotheses discharged. -/
theorem C10_witness :
    stripComparison (generation_handler render0 0 country0 state0 stage0 goals0
        question0 none mA jparseFail0)
      = stripComparison (generation_handler render0 0 country0 state0 stage0
          goals0 question0 none mB jparseFail0) := by
  exact C10_high_temp_noninterference render0 0 country0 state0 stage0 goals0
    question0 none mA mB jparseFail0 (by simp [mA, mB])
    (some (if (7 / 10 : ℚ) = 3 / 10 then toL "base answer" else toL "creative A"))
    (some (if (7 / 10 : ℚ) = 3 / 10 then toL "base answer" else toL "creative B"))
    rfl rfl
